import Mathlib

/-!
Verification development for the "paper of the day" repository.

The repository extracts arXiv identifiers published on a target date from a
listing page (`src/lib/arxiv.ts`, `getArxivIdsForDate`), wraps each identifier
in a lazily-resolved `Paper` entity, filters candidates with a boolean
classifier (`alignedWithCentML`), folds them to a single leader with a pairwise
comparator (`mostImpactful`), and summarizes the winner.

The definitions below are a shallow embedding of that code.  Stateful pieces
(the `Paper` caches, the workflow fold) are explicit state passing; the
external oracles (HTTP fetches, the LLM service) are parameters; fallible code
(exceptions propagating out of `async` functions) is `Except`.
-/

namespace Potd

/-! String utilities mirroring the JavaScript operations used by the code. -/

/-- JS `s.replace(/\s+/g, " ")`: each maximal whitespace run becomes one
space.  The Boolean argument records whether the previous character was
whitespace (i.e. a space for this run was already emitted). -/
def collapseGo : Bool → List Char → List Char
  | _, [] => []
  | prevWs, c :: cs =>
    if c.isWhitespace then
      if prevWs then collapseGo true cs
      else ' ' :: collapseGo true cs
    else c :: collapseGo false cs

/-- JS `s.replace(/\s+/g, " ")` on a whole string. -/
def collapseWs (s : String) : String := String.mk (collapseGo false s.data)

/-- JS `s.trim()` on a character list: strip whitespace from both ends. -/
def trimChars (cs : List Char) : List Char :=
  ((cs.dropWhile Char.isWhitespace).reverse.dropWhile Char.isWhitespace).reverse

/-- JS `s.trim()`. -/
def strTrim (s : String) : String := String.mk (trimChars s.data)

/-- Test that `needle` is a leading segment of `hay` (character lists). -/
def listStarts : List Char → List Char → Bool
  | [], _ => true
  | _ :: _, [] => false
  | p :: ps, c :: cs => p == c && listStarts ps cs

/-- JS `s.startsWith(pre)`. -/
def strStarts (s pre : String) : Bool :=
  listStarts pre.data s.data

/-- ASCII lowering of one character; `toLowerCase()` restricted to the ASCII
range, which is all that the yes/no answers compared here use. -/
def lowerChar (c : Char) : Char :=
  if 65 ≤ c.toNat ∧ c.toNat ≤ 90 then Char.ofNat (c.toNat + 32) else c

/-- JS `s.toLowerCase()` (ASCII). -/
def strToLower (s : String) : String := String.mk (s.data.map lowerChar)

/-- JS `s.split(c)[0]`: everything before the first occurrence of `c`
(the whole list when `c` does not occur). -/
def beforeChar (c : Char) (cs : List Char) : List Char :=
  cs.takeWhile (fun x => x ≠ c)

/-- JS `s.split(c).pop()`: everything after the last occurrence of `c`
(the whole list when `c` does not occur). -/
def afterLastChar (c : Char) (cs : List Char) : List Char :=
  (cs.reverse.takeWhile (fun x => x ≠ c)).reverse

/-- JS `s.split(sep).pop() || ""` for the non-self-overlapping separator
`"</think>"`: the text after the last occurrence of `sep`, or the whole
string when `sep` does not occur. -/
def afterLastSep (sep : List Char) : List Char → Option (List Char)
  | [] => none
  | c :: cs =>
    match afterLastSep sep cs with
    | some r => some r
    | none =>
      if listStarts sep (c :: cs) then some (List.drop sep.length (c :: cs))
      else none

/-- JS `completion.split("</think>").pop() || ""` generalised to any
separator without self-overlap. -/
def lastSegmentAfter (sep : String) (s : String) : String :=
  match afterLastSep sep.data s.data with
  | some r => String.mk r
  | none => s

/-- JS `tokens.join(" ")`. -/
def joinSp : List String → String
  | [] => ""
  | [x] => x
  | x :: xs => x ++ " " ++ joinSp xs

/-- Accumulating pass behind `splitWsTokens`; `cur` is the current token
reversed. -/
def wordsGo (cur : List Char) : List Char → List (List Char)
  | [] => if cur = [] then [] else [cur.reverse]
  | c :: cs =>
    if c.isWhitespace then
      if cur = [] then wordsGo [] cs else cur.reverse :: wordsGo [] cs
    else wordsGo (c :: cur) cs

/-- Test that `needle` occurs somewhere inside `hay` (character lists). -/
def listHasSub (needle : List Char) : List Char → Bool
  | [] => listStarts needle []
  | c :: cs => listStarts needle (c :: cs) || listHasSub needle cs

/-- JS `hay.includes(need)`. -/
def strContains (hay need : String) : Bool := listHasSub need.data hay.data

/-- JS `s.split(/\s+/)` for a trimmed string: whitespace-run delimited
tokens (a `/\s+/` split of a trimmed string produces no empty tokens). -/
def splitWsTokens (s : String) : List String :=
  (wordsGo [] s.data).map String.mk

/-- Digit list to the number `parseInt` would produce on it. -/
def natOfDigits (cs : List Char) : Nat :=
  cs.foldl (fun a c => a * 10 + (c.toNat - 48)) 0

/-! The date regular expression.

`getArxivIdsForDate` matches navigation-entry text against
`/(\d{1,2})\s+([A-Za-z]{3})\s+(\d{4})/` (an unanchored search).  The matcher
below reproduces that search: it tries every start position left to right;
at each position the day is matched greedily (two digits, then one); the
whitespace runs are consumed greedily (whitespace and the following character
classes are disjoint, so no further backtracking arises). -/

/-- Match exactly `n` characters satisfying `p`, returning them and the rest. -/
def takeKind (p : Char → Bool) : Nat → List Char → Option (List Char × List Char)
  | 0, cs => some ([], cs)
  | _ + 1, [] => none
  | n + 1, c :: cs =>
    if p c then
      match takeKind p n cs with
      | some (tk, rest) => some (c :: tk, rest)
      | none => none
    else none

/-- Match `\s+`: at least one whitespace character, greedily. -/
def skipWs1 : List Char → Option (List Char)
  | [] => none
  | c :: cs =>
    if c.isWhitespace then some (cs.dropWhile Char.isWhitespace) else none

/-- Try to match the date pattern starting exactly at the head of `cs`,
returning (day, month token, year). -/
def matchDateAt (cs : List Char) : Option (Nat × String × Nat) :=
  let attempt : Nat → Option (Nat × String × Nat) := fun n =>
    match takeKind Char.isDigit n cs with
    | none => none
    | some (dayCs, r1) =>
      match skipWs1 r1 with
      | none => none
      | some r2 =>
        match takeKind Char.isAlpha 3 r2 with
        | none => none
        | some (monCs, r3) =>
          match skipWs1 r3 with
          | none => none
          | some r4 =>
            match takeKind Char.isDigit 4 r4 with
            | none => none
            | some (yrCs, _) =>
              some (natOfDigits dayCs, String.mk monCs, natOfDigits yrCs)
  match attempt 2 with
  | some r => some r
  | none => attempt 1

/-- The unanchored regex search: first match over all start positions. -/
def findDate : List Char → Option (Nat × String × Nat)
  | [] => none
  | c :: cs =>
    match matchDateAt (c :: cs) with
    | some r => some r
    | none => findDate cs

/-- The month lookup `["Jan",...,"Dec"].indexOf(monthStr) + 1` (0 when the
token is not a month abbreviation, exactly as `indexOf` returns -1 there). -/
def monthNum (s : String) : Nat :=
  if s = "Jan" then 1 else if s = "Feb" then 2 else if s = "Mar" then 3
  else if s = "Apr" then 4 else if s = "May" then 5 else if s = "Jun" then 6
  else if s = "Jul" then 7 else if s = "Aug" then 8 else if s = "Sep" then 9
  else if s = "Oct" then 10 else if s = "Nov" then 11 else if s = "Dec" then 12
  else 0

/-! Listing extraction (`getArxivIdsForDate`, src/lib/arxiv.ts).

The document tree is abstracted to what the function queries from it:
the text content of each `ul li a` navigation entry, and the children of
`dl#articles` in document order (`h3` date headings, `dt` paper entries
carrying the `href`s of their descendant links, and other siblings such as
`dd`).  The model presumes the `DOMParser` produced a document (the
`if (!doc) return []` guard concerns a parser that never actually
returns null on a string input). -/

/-- A sibling node inside `dl#articles`. -/
inductive ArtNode where
  | h3 (text : String)
  | dt (links : List String)
  | other
deriving DecidableEq

/-- The fetched listing document, abstracted to the queried parts. -/
structure ListingDoc where
  navEntries : List String
  articles : List ArtNode
deriving DecidableEq

/-- The date test of one navigation entry: text is trimmed, anything from
the first `"("` on is dropped and the remainder re-trimmed, the date regex is
searched, and the components are compared with the target triple
(the target month is already 1-based: the code passes `getMonth() + 1`). -/
def navEntryMatches (targetYear targetMonth targetDay : Nat) (entry : String) : Bool :=
  let dateText := String.mk (trimChars (beforeChar '(' (trimChars entry.data)))
  match findDate dateText.data with
  | none => false
  | some (day, monStr, year) =>
    year == targetYear && monthNum monStr == targetMonth && day == targetDay

/-- The heading key
`matchingDateEntry.textContent.trim().split(/\s+/).slice(0, 4).join(" ")`:
the first four whitespace-delimited tokens of the full trimmed text of the
matched entry. -/
def canonicalPhrase (entry : String) : String :=
  joinSp ((splitWsTokens (strTrim entry)).take 4)

/-- Identifier contributed by one sibling node: for a `dt`, the first
descendant link whose `href` starts with `/abs/` yields
`href.split("/").pop() || ""`, pushed only when non-empty. -/
def entryId : ArtNode → Option String
  | .dt links =>
    match links.find? (fun href => strStarts href "/abs/") with
    | some href =>
      let id := String.mk (afterLastChar '/' href.data)
      if id = "" then none else some id
    | none => none
  | _ => none

/-- Is this sibling an `h3` heading (the stopping test of the walk)? -/
def isH3 : ArtNode → Bool
  | .h3 _ => true
  | _ => false

/-- The sibling walk: `while (nextNode && !nextNode.matches("h3"))`,
collecting `dt` identifiers in document order. -/
def collectIds : List ArtNode → List String
  | [] => []
  | node :: rest =>
    if isH3 node then []
    else
      match entryId node with
      | some id => id :: collectIds rest
      | none => collectIds rest

/-- The combination of `querySelectorAll("dl#articles h3")`, `.find(...)` and the
start of the sibling walk: the siblings after the first `h3` whose text
contains `phrase`. -/
def findHeadingSuffix (phrase : String) : List ArtNode → Option (List ArtNode)
  | [] => none
  | ArtNode.h3 t :: rest =>
    if strContains t phrase then some rest else findHeadingSuffix phrase rest
  | _ :: rest => findHeadingSuffix phrase rest

/-- The function `getArxivIdsForDate` (src/lib/arxiv.ts lines 83-151), with the fetched
document supplied as a parameter and the target date already split into the
`(getFullYear(), getMonth() + 1, getDate())` triple. -/
def getArxivIdsForDate (doc : ListingDoc) (targetYear targetMonth targetDay : Nat) :
    List String :=
  match doc.navEntries.find? (navEntryMatches targetYear targetMonth targetDay) with
  | none => []
  | some entry =>
    let fullDateString := canonicalPhrase entry
    match findHeadingSuffix fullDateString doc.articles with
    | none => []
    | some rest => collectIds rest

/-! The Paper entity (src/lib/arxiv.ts lines 18-75).

The class holds `arxivId` plus two string caches `_abstract` and `_text`,
both initialised to `""`; `abstract()`/`text()` test the cache with JS
truthiness (`if (!this._abstract)`), so the empty string doubles as the
"unset" sentinel.  The retrieval collaborators (`getArxivAbstract`,
`extractPaperText`) are modelled as functions from the call index to the
delivered string, and reads thread an explicit call counter so that "how many
retrievals happened" is provable. -/

/-- Runtime state of one `Paper` instance (the caches are the fields
`_abstract` and `_text` of the class). -/
structure PaperState where
  arxivId : String
  abstractCache : String
  textCache : String
deriving DecidableEq

/-- The constructor `new Paper(arxivId)`: both caches start at the `""` sentinel. -/
def mkPaper (arxivId : String) : PaperState := ⟨arxivId, "", ""⟩

/-- The method `abstract()`: if the cache is JS-falsy (empty), invoke the
retrieval collaborator once, store the result, return it; otherwise return
the cache.  Returns (returned string, new state, new retrieval-call count). -/
def abstractRead (fetchAbs : Nat → String) (p : PaperState) (calls : Nat) :
    String × PaperState × Nat :=
  if p.abstractCache = "" then
    let r := fetchAbs calls
    (r, { p with abstractCache := r }, calls + 1)
  else
    (p.abstractCache, p, calls)

/-- The method `text()`: same discipline on the `_text` cache. -/
def textRead (fetchText : Nat → String) (p : PaperState) (calls : Nat) :
    String × PaperState × Nat :=
  if p.textCache = "" then
    let r := fetchText calls
    (r, { p with textCache := r }, calls + 1)
  else
    (p.textCache, p, calls)

/-- The plain object `JSON.stringify` serialises for one `Paper`: its own
enumerable properties `arxivId`, `_abstract`, `_text` (TypeScript `private`
is compile-time only). -/
structure MarshalledPaper where
  arxivId : String
  abstractStr : String
  textStr : String
deriving DecidableEq

/-- The static `Paper.marshalPapers(papers)` on the default `fetchData = false` path
(`fetchData = true` merely pre-resolves the caches through `abstract()` /
`text()` and then serialises the resulting states). -/
def marshalPapers (papers : List PaperState) : List MarshalledPaper :=
  papers.map fun p =>
    { arxivId := p.arxivId, abstractStr := p.abstractCache, textStr := p.textCache }

/-- The static `Paper.unmarshalPapers`: for each plain object, `new Paper(plainObj.arxivId)`
followed by `Object.assign(paper, plainObj)`, which overwrites every
serialised own property (`arxivId`, `_abstract`, `_text`). -/
def unmarshalPapers (ms : List MarshalledPaper) : List PaperState :=
  ms.map fun m =>
    let paper := mkPaper m.arxivId
    { paper with
        arxivId := m.arxivId, abstractCache := m.abstractStr, textCache := m.textStr }

/-! Classifier and workflow (src/paper_of_the_day.ts).

`alignedWithCentML` sends the abstract to the LLM oracle and answers
`completion.toLowerCase().startsWith("yes")`.  The oracle round trip either
delivers a completion string or raises a transport error; there is no
try/catch in the function or around its call site, so a raised error
propagates out of `workflow`. -/

/-- Outcome of one oracle round trip. -/
inductive OracleReply where
  | unreachable
  | reply (content : String)
deriving DecidableEq

/-- The classifier `alignedWithCentML` (src/paper_of_the_day.ts lines 10-41): a transport
error propagates as an exception; a delivered completion is accepted iff it
starts with "yes" case-insensitively (anything else counts as "no"). -/
def alignedWithCentML : OracleReply → Except Unit Bool
  | .unreachable => .error ()
  | .reply s => .ok (strStarts (strToLower s) "yes")

/-- The answer parsing of `mostImpactful` (src/paper_of_the_day.ts lines
74-85): drop everything up to the last `</think>`, collapse whitespace, trim,
and keep `paper1` iff the result starts with "1". -/
def mostImpactfulPick (completion : String) (paper1 paper2 : α) : α :=
  let rawAnswer := lastSegmentAfter "</think>" completion
  let answer := strTrim (collapseWs rawAnswer)
  if strStarts answer "1" then paper1 else paper2

/-- The external collaborators the workflow consumes: abstract retrieval per
identifier (assumed to succeed; its failure mode is out of scope of the
claims proved here), and the classifier / comparator oracles keyed by the
texts actually sent to them. -/
structure Oracles where
  absOf : String → String
  clsReply : String → OracleReply
  cmpReply : String → String → String

/-- The candidate loop of `workflow` (src/paper_of_the_day.ts lines 155-179):
`leadingPaper` threads through the fold; a classifier exception propagates
and aborts the run; a rejected candidate is skipped; an accepted candidate
becomes leader directly when there is none, else via `mostImpactful`. -/
def runLoop (o : Oracles) : List String → Option String → Except Unit (Option String)
  | [], leader => .ok leader
  | id :: rest, leader =>
    match alignedWithCentML (o.clsReply (o.absOf id)) with
    | .error e => .error e
    | .ok false => runLoop o rest leader
    | .ok true =>
      let newLeader :=
        match leader with
        | none => id
        | some l => mostImpactfulPick (o.cmpReply (o.absOf l) (o.absOf id)) l id
      runLoop o rest (some newLeader)

/-- Observable outcome of one workflow run. -/
structure RunResult where
  leader : Option String
  summarizeAttempted : Bool
deriving DecidableEq

/-- The function `workflow` (src/paper_of_the_day.ts lines 145-196) after extraction:
fold the candidates, then summarize exactly when `if (leadingPaper)` holds. -/
def workflow (o : Oracles) (ids : List String) : Except Unit RunResult :=
  match runLoop o ids none with
  | .error e => .error e
  | .ok leader => .ok { leader := leader, summarizeAttempted := leader.isSome }

/-! The retrying comparator (src/paper-of-the-day.ts lines 50-137).

This `mostImpactful` variant parses with
`completion.replace(/\s+/g, " ").trim()` and `startsWith`; when the first
answer fails the 1/2 test it appends the exchange plus an
"answer with 1 or 2 ONLY" instruction and re-invokes the oracle,
accumulating `updatedCompletion` — but then executes
`answer = completion.replace(/\s+/g, " ").trim();`, reparsing the ORIGINAL
completion instead of `updatedCompletion`.  The model keeps the retry
completion as a parameter to record that the second round trip happens. -/

/-- Result of the retrying comparator: a selected paper, or the thrown
`Error("Invalid response. Please answer with 1 or 2 ONLY.")`. -/
inductive CmpRes (α : Type) where
  | winner (p : α)
  | invalidResponse
deriving DecidableEq

/-- JS `completion.replace(/\s+/g, " ").trim()`. -/
def cleanAnswer (s : String) : String := strTrim (collapseWs s)

/-- The comparator `mostImpactful` with retry (src/paper-of-the-day.ts lines
50-137).  Here `completion` is the content accumulated by the first round
trip and `updatedCompletion` the content of the retry; the retry content is
received but, as in the source, never consulted by the final checks. -/
def mostImpactfulRetry (completion updatedCompletion : String) (paper1 paper2 : α) :
    CmpRes α :=
  let answer := cleanAnswer completion
  let answer1 :=
    if !strStarts answer "1" && !strStarts answer "2" then
      -- the retry request is issued here and `updatedCompletion` accumulated,
      -- but the reassignment reads `completion` again
      let _ := updatedCompletion
      cleanAnswer completion
    else answer
  if !strStarts answer1 "1" && !strStarts answer1 "2" then
    CmpRes.invalidResponse
  else if strStarts answer1 "1" then CmpRes.winner paper1
  else CmpRes.winner paper2

/-! Theorems. -/

/-- The sibling walk collects, in document order, exactly the identifiers of
the entries strictly before the first following heading. -/
theorem collectIds_eq_takeWhile_filterMap (l : List ArtNode) :
    collectIds l = (l.takeWhile (fun n => !isH3 n)).filterMap entryId := by
  induction l with
  | nil => rfl
  | cons n rest ih =>
    cases hn : isH3 n with
    | true =>
      have hne : entryId n = none := by cases n <;> simp_all [isH3, entryId]
      simp [collectIds, hn, List.takeWhile_cons]
    | false =>
      cases he : entryId n <;>
        simp [collectIds, hn, he, List.takeWhile_cons, List.filterMap_cons, ih]

/-- Claim C2: whenever a navigation entry and then a content-section heading
are matched, extraction returns exactly, in document order, the identifiers
of the paper-entry siblings strictly between the matched heading and the
next heading (`takeWhile` stops at the next `h3`); entries lacking an
abstract-view link contribute `none` to the `filterMap` and are skipped;
duplicates pass through `filterMap` unchanged, and the function is total. -/
theorem extraction_is_orderly_between_headings (doc : ListingDoc)
    (y m d : Nat) (entry : String) (rest : List ArtNode)
    (hnav : doc.navEntries.find? (navEntryMatches y m d) = some entry)
    (hhead : findHeadingSuffix (canonicalPhrase entry) doc.articles = some rest) :
    getArxivIdsForDate doc y m d
      = (rest.takeWhile (fun n => !isH3 n)).filterMap entryId := by
  unfold getArxivIdsForDate
  rw [hnav]
  simp only [hhead]
  exact collectIds_eq_takeWhile_filterMap rest

/-- Witness for C2 on a concrete document: the heading section contains an
entry, a non-entry sibling, an entry without an abstract link, a duplicate
entry, and a further section after the next heading; the result is the two
duplicate identifiers in order, and nothing from the later section. -/
theorem extraction_is_orderly_between_headings_witness :
    (ListingDoc.mk ["Thu, 14 Mar 2024"]
        [ArtNode.h3 "Thu, 14 Mar 2024 (showing 12 entries)",
         ArtNode.dt ["/abs/2403.00001"], ArtNode.other, ArtNode.dt [],
         ArtNode.dt ["/abs/2403.00001"], ArtNode.h3 "Wed, 13 Mar 2024",
         ArtNode.dt ["/abs/2403.99999"]]).navEntries.find?
        (navEntryMatches 2024 3 14) = some "Thu, 14 Mar 2024" ∧
    getArxivIdsForDate
        (ListingDoc.mk ["Thu, 14 Mar 2024"]
          [ArtNode.h3 "Thu, 14 Mar 2024 (showing 12 entries)",
           ArtNode.dt ["/abs/2403.00001"], ArtNode.other, ArtNode.dt [],
           ArtNode.dt ["/abs/2403.00001"], ArtNode.h3 "Wed, 13 Mar 2024",
           ArtNode.dt ["/abs/2403.99999"]]) 2024 3 14
      = ["2403.00001", "2403.00001"] := by
  refine ⟨by decide, ?_⟩
  have h := extraction_is_orderly_between_headings
    (ListingDoc.mk ["Thu, 14 Mar 2024"]
      [ArtNode.h3 "Thu, 14 Mar 2024 (showing 12 entries)",
       ArtNode.dt ["/abs/2403.00001"], ArtNode.other, ArtNode.dt [],
       ArtNode.dt ["/abs/2403.00001"], ArtNode.h3 "Wed, 13 Mar 2024",
       ArtNode.dt ["/abs/2403.99999"]]) 2024 3 14 "Thu, 14 Mar 2024"
    [ArtNode.dt ["/abs/2403.00001"], ArtNode.other, ArtNode.dt [],
     ArtNode.dt ["/abs/2403.00001"], ArtNode.h3 "Wed, 13 Mar 2024",
     ArtNode.dt ["/abs/2403.99999"]] (by decide) (by decide)
  exact h.trans (by decide)

/-- Claim C3, counterexample: for the navigation entry text
`"14 Mar 2024 (showing 50 of 50 entries)"` and target (2024, 3, 14) the
heading-lookup string is NOT `"14 Mar 2024"`: a document whose content
heading is exactly the date phrase `"14 Mar 2024"` (which therefore contains
the claimed lookup string) yields no identifiers at all, because the code
looks the heading up with the first four tokens of the FULL entry text. -/
theorem canonical_phrase_counterexample :
    canonicalPhrase "14 Mar 2024 (showing 50 of 50 entries)" ≠ "14 Mar 2024" ∧
    getArxivIdsForDate
        (ListingDoc.mk ["14 Mar 2024 (showing 50 of 50 entries)"]
          [ArtNode.h3 "14 Mar 2024", ArtNode.dt ["/abs/2403.11111"]])
        2024 3 14 = [] :=
  ⟨by decide, rfl⟩

/-- Claim C3 as amended: the canonical phrase is the first four
whitespace-delimited tokens of the full trimmed display
text, with any parenthetical included — for the entry
`"14 Mar 2024 (showing 50 of 50 entries)"` it is `"14 Mar 2024 (showing"`,
and a heading containing that string is matched and its entries
extracted. -/
theorem canonical_phrase_amended :
    canonicalPhrase "14 Mar 2024 (showing 50 of 50 entries)"
      = "14 Mar 2024 (showing" ∧
    getArxivIdsForDate
        (ListingDoc.mk ["14 Mar 2024 (showing 50 of 50 entries)"]
          [ArtNode.h3 "Thu, 14 Mar 2024 (showing 50 of 50 entries)",
           ArtNode.dt ["/abs/2403.11111"]])
        2024 3 14 = ["2403.11111"] :=
  ⟨rfl, rfl⟩

/-- Claim C4: when no navigation entry matches the target triple, or a
navigation entry matches but no content-section heading contains the
canonical date phrase, extraction returns the empty list (and, being a total
function, never throws). -/
theorem extraction_empty_when_no_match (doc : ListingDoc) (y m d : Nat)
    (h : doc.navEntries.find? (navEntryMatches y m d) = none ∨
      ∃ entry, doc.navEntries.find? (navEntryMatches y m d) = some entry ∧
        findHeadingSuffix (canonicalPhrase entry) doc.articles = none) :
    getArxivIdsForDate doc y m d = [] := by
  unfold getArxivIdsForDate
  rcases h with h | ⟨entry, h1, h2⟩
  · rw [h]
  · rw [h1]
    simp only [h2]

/-- Witness for C4: a document whose only navigation entry carries no date
phrase yields the empty list. -/
theorem extraction_empty_when_no_match_witness :
    (ListingDoc.mk ["announcements"]
        [ArtNode.h3 "Thu, 14 Mar 2024", ArtNode.dt ["/abs/2403.1"]]).navEntries.find?
        (navEntryMatches 2024 3 14) = none ∧
    getArxivIdsForDate
        (ListingDoc.mk ["announcements"]
          [ArtNode.h3 "Thu, 14 Mar 2024", ArtNode.dt ["/abs/2403.1"]])
        2024 3 14 = [] :=
  ⟨rfl, extraction_empty_when_no_match _ 2024 3 14 (Or.inl rfl)⟩

/-- Claim C1: the retry answer is discarded by the code.  The first
completion fails the 1/2 test, the retry delivers `"2"` — which parses
(first conjunct) and per the claim should make the candidate the leader —
yet the comparator re-parses the original completion and throws the
invalid-comparator-response error. -/
theorem retry_answer_is_discarded :
    strStarts (cleanAnswer "2") "2" = true ∧
    mostImpactfulRetry "I think paper 2 is stronger" "2" "leader" "candidate"
      = CmpRes.invalidResponse :=
  ⟨rfl, rfl⟩

/-- Claim C5, counterexample: when retrieval delivers the empty string, two
sequential `abstract()` reads of a fresh `Paper` make TWO retrieval calls,
not the claimed exactly one — the empty string is the unset
sentinel. -/
theorem two_reads_two_calls_on_empty_fetch :
    (abstractRead (fun _ => "")
        (abstractRead (fun _ => "") (mkPaper "2406.00001") 0).2.1
        (abstractRead (fun _ => "") (mkPaper "2406.00001") 0).2.2).2.2 = 2 :=
  rfl

/-- Claim C5 as amended: provided the retrieval result is non-empty, each
field resolves at most once — the first read invokes retrieval exactly once,
stores and returns the result, and the second read returns the cached value
with no further call; an empty retrieval result instead causes retrieval to
be invoked again. -/
theorem fields_memoized_when_nonempty (fetchAbs fetchText : Nat → String)
    (id : String) (c : Nat) (ha : fetchAbs c ≠ "") (ht : fetchText c ≠ "") :
    (abstractRead fetchAbs (mkPaper id) c).1 = fetchAbs c ∧
    (abstractRead fetchAbs (mkPaper id) c).2.2 = c + 1 ∧
    abstractRead fetchAbs (abstractRead fetchAbs (mkPaper id) c).2.1
        (abstractRead fetchAbs (mkPaper id) c).2.2
      = (fetchAbs c, (abstractRead fetchAbs (mkPaper id) c).2.1, c + 1) ∧
    (textRead fetchText (mkPaper id) c).1 = fetchText c ∧
    (textRead fetchText (mkPaper id) c).2.2 = c + 1 ∧
    textRead fetchText (textRead fetchText (mkPaper id) c).2.1
        (textRead fetchText (mkPaper id) c).2.2
      = (fetchText c, (textRead fetchText (mkPaper id) c).2.1, c + 1) := by
  simp [abstractRead, textRead, mkPaper, ha, ht]

/-- Witness for the amended C5 at non-empty retrieval results: the second
read returns the stored abstract and the call count stays at 1. -/
theorem fields_memoized_when_nonempty_witness :
    abstractRead (fun _ => "An abstract.")
        (abstractRead (fun _ => "An abstract.") (mkPaper "2406.00001") 0).2.1
        (abstractRead (fun _ => "An abstract.") (mkPaper "2406.00001") 0).2.2
      = ("An abstract.",
         (abstractRead (fun _ => "An abstract.") (mkPaper "2406.00001") 0).2.1, 1) :=
  (fields_memoized_when_nonempty (fun _ => "An abstract.") (fun _ => "Full text.")
    "2406.00001" 0 (by decide) (by decide)).2.2.1

/-- Claim C10: an empty retrieval result is not memoized — after the first
read the cache still holds the unset sentinel, the call was made, and a
second read of the same field invokes retrieval again. -/
theorem empty_result_not_memoized (fetchAbs : Nat → String) (id : String)
    (c : Nat) (h : fetchAbs c = "") :
    (abstractRead fetchAbs (mkPaper id) c).2.1.abstractCache = "" ∧
    (abstractRead fetchAbs (mkPaper id) c).2.2 = c + 1 ∧
    (abstractRead fetchAbs (abstractRead fetchAbs (mkPaper id) c).2.1
        (abstractRead fetchAbs (mkPaper id) c).2.2).2.2 = c + 2 := by
  simp [abstractRead, mkPaper, h]

/-- Witness for C10: a retrieval collaborator that returns the empty string
leaves the cache unset and is called a second time on the next read. -/
theorem empty_result_not_memoized_witness :
    (abstractRead (fun _ => "") (mkPaper "2406.00002") 0).2.1.abstractCache = "" ∧
    (abstractRead (fun _ => "")
        (abstractRead (fun _ => "") (mkPaper "2406.00002") 0).2.1
        (abstractRead (fun _ => "") (mkPaper "2406.00002") 0).2.2).2.2 = 2 :=
  ⟨(empty_result_not_memoized (fun _ => "") "2406.00002" 0 rfl).1,
   (empty_result_not_memoized (fun _ => "") "2406.00002" 0 rfl).2.2⟩

/-- Claim C6, counterexample: an unreachable classifier oracle is NOT
recovered locally — the exception propagates out of the call site of
`alignedWithCentML`, and the whole run aborts instead of excluding the candidate and
continuing. -/
theorem unreachable_classifier_aborts_run :
    workflow
        (Oracles.mk (fun _ => "") (fun _ => OracleReply.unreachable) (fun _ _ => "1"))
        ["2501.00001"]
      = Except.error () :=
  rfl

/-- Claim C6 as amended: a malformed classifier ANSWER (a delivered
completion not starting with "yes" case-insensitively) is conservatively
treated as rejection — the candidate is excluded and the run continues with
the remaining candidates — whereas an unreachable oracle aborts the run. -/
theorem malformed_classifier_answer_excludes (o : Oracles) (id : String)
    (rest : List String) (leader : Option String) (s : String)
    (hcls : o.clsReply (o.absOf id) = OracleReply.reply s)
    (hmal : strStarts (strToLower s) "yes" = false) :
    runLoop o (id :: rest) leader = runLoop o rest leader := by
  simp [runLoop, alignedWithCentML, hcls, hmal]

/-- Witness for the amended C6: a classifier answering with prose that is
not a yes leads to exclusion and an intact (completed) run. -/
theorem malformed_classifier_answer_excludes_witness :
    runLoop
        (Oracles.mk (fun _ => "")
          (fun _ => OracleReply.reply "It is unclear.") (fun _ _ => "1"))
        ["2501.00002"] none
      = Except.ok none :=
  (malformed_classifier_answer_excludes
    (Oracles.mk (fun _ => "")
      (fun _ => OracleReply.reply "It is unclear.") (fun _ _ => "1"))
    "2501.00002" [] none "It is unclear." rfl rfl).trans rfl

/-- Claim C7: when the classifier rejects every extracted candidate, the
fold ends with no leader and summarization is never attempted. -/
theorem all_rejected_ends_with_no_leader (o : Oracles) (ids : List String)
    (h : ∀ id ∈ ids, alignedWithCentML (o.clsReply (o.absOf id)) = Except.ok false) :
    workflow o ids = Except.ok ⟨none, false⟩ := by
  have main : ∀ l : List String,
      (∀ id ∈ l, alignedWithCentML (o.clsReply (o.absOf id)) = Except.ok false) →
      runLoop o l none = Except.ok none := by
    intro l
    induction l with
    | nil => intro _; rfl
    | cons id rest ih =>
      intro hl
      have h1 := hl id (List.mem_cons_self id rest)
      simp [runLoop, h1, ih (fun i hi => hl i (List.mem_cons_of_mem _ hi))]
  unfold workflow
  rw [main ids h]
  rfl

/-- Witness for C7: two candidates, both classified "No" — no leader, no
summarization. -/
theorem all_rejected_ends_with_no_leader_witness :
    workflow
        (Oracles.mk (fun i => i)
          (fun _ => OracleReply.reply "No, unrelated.") (fun _ _ => "1"))
        ["2501.1", "2501.2"]
      = Except.ok ⟨none, false⟩ :=
  all_rejected_ends_with_no_leader _ _ (fun _ _ => rfl)

/-- Claim C8: deserializing the serialized representation reconstructs the
same identifiers and cached fields, and a restored non-empty cached field is
returned by a subsequent read with no retrieval call (state and counter are
unchanged). -/
theorem marshal_roundtrip (papers : List PaperState) :
    unmarshalPapers (marshalPapers papers) = papers ∧
    ∀ p ∈ unmarshalPapers (marshalPapers papers),
      (p.abstractCache ≠ "" →
        ∀ fetchAbs c, abstractRead fetchAbs p c = (p.abstractCache, p, c)) ∧
      (p.textCache ≠ "" →
        ∀ fetchText c, textRead fetchText p c = (p.textCache, p, c)) := by
  constructor
  · induction papers with
    | nil => rfl
    | cons p rest ih =>
      -- the head reconstructs to the original record; the tail is `ih`
      simp only [marshalPapers, unmarshalPapers, List.map_cons] at ih ⊢
      rw [ih]
  · intro p _
    exact ⟨fun hne fetchAbs c => by simp [abstractRead, hne],
           fun hne fetchText c => by simp [textRead, hne]⟩

/-- Witness for C8: a one-element round trip, and a read of the restored
non-empty abstract that performs no retrieval call. -/
theorem marshal_roundtrip_witness :
    unmarshalPapers (marshalPapers [PaperState.mk "2406.1" "An abstract." "Full text."])
      = [PaperState.mk "2406.1" "An abstract." "Full text."] ∧
    abstractRead (fun _ => "refetched") (PaperState.mk "2406.1" "An abstract." "Full text.") 0
      = ("An abstract.", PaperState.mk "2406.1" "An abstract." "Full text.", 0) := by
  refine ⟨(marshal_roundtrip _).1, ?_⟩
  have h := marshal_roundtrip [PaperState.mk "2406.1" "An abstract." "Full text."]
  have hm : PaperState.mk "2406.1" "An abstract." "Full text."
      ∈ unmarshalPapers (marshalPapers [PaperState.mk "2406.1" "An abstract." "Full text."]) := by
    rw [h.1]
    exact List.mem_singleton_self _
  exact (h.2 _ hm).1 (by decide) (fun _ => "refetched") 0

/-- Claim C9: the tournament fold is deterministic given deterministic
oracle answers — replaying the same candidate sequence against classifier
and comparator oracles that answer identically yields the same outcome
(same final leader, same summarization decision). -/
theorem reducer_deterministic (absOf : String → String)
    (cls₁ cls₂ : String → OracleReply) (cmp₁ cmp₂ : String → String → String)
    (ids : List String)
    (hcls : ∀ s, cls₁ s = cls₂ s) (hcmp : ∀ a b, cmp₁ a b = cmp₂ a b) :
    workflow (Oracles.mk absOf cls₁ cmp₁) ids
      = workflow (Oracles.mk absOf cls₂ cmp₂) ids := by
  have h1 : cls₁ = cls₂ := funext hcls
  have h2 : cmp₁ = cmp₂ := funext fun a => funext fun b => hcmp a b
  rw [h1, h2]

/-- Witness for C9: two syntactically different but pointwise-equal oracle
pairs produce the same run, whose leader is the later candidate. -/
theorem reducer_deterministic_witness :
    workflow
        (Oracles.mk (fun i => i) (fun _ => OracleReply.reply "Yes")
          (fun a b => if a = a ∧ b = b then "2" else "1"))
        ["p1", "p2"]
      = workflow
        (Oracles.mk (fun i => i) (fun _ => OracleReply.reply "Yes")
          (fun _ _ => "2"))
        ["p1", "p2"] ∧
    workflow
        (Oracles.mk (fun i => i) (fun _ => OracleReply.reply "Yes")
          (fun _ _ => "2"))
        ["p1", "p2"]
      = Except.ok ⟨some "p2", true⟩ :=
  ⟨reducer_deterministic (fun i => i)
      (fun _ => OracleReply.reply "Yes") (fun _ => OracleReply.reply "Yes")
      (fun a b => if a = a ∧ b = b then "2" else "1") (fun _ _ => "2")
      ["p1", "p2"] (fun _ => rfl) (fun a b => by simp),
   rfl⟩

end Potd
